import Mathlib

/-!
Verification of the TinyMCP `mcp_sdk` protocol engine against its
natural-language specification.

The definitions below are a shallow embedding of the C++ sources:

* `src/mcp_sdk/src/core/message.cpp`    — Request / Response / Notification codec
* `src/mcp_sdk/src/core/error.cpp`      — `MCPError`, `errorCodeFromInt`, `errorCodeToInt`
* `src/mcp_sdk/include/mcp/error_simple.hpp` — the `ErrorCode` enum (wire values)
* `src/mcp_sdk/src/server/server.cpp`   — `MCPServer` message handling and dispatch
* `src/mcp_sdk/src/tools/tools.cpp`     — `ToolRegistry`
* `src/mcp_sdk/src/resources/resources.cpp`, `src/mcp_sdk/src/prompts/prompts.cpp`
* `src/mcp_sdk/src/client/client.cpp`   — `MCPClient::sendRequest` / `handleResponse`
* `src/mcp_sdk/src/transport/stdio_transport.cpp` — the stdio read loop

Modelling conventions:

* `nlohmann::json` values are modelled by the inductive `Json` below.  JSON
  objects are association lists; nlohmann stores objects as key-sorted maps
  with unique keys, and all code under verification accesses fields only by
  name, so list order is immaterial to every statement proved here.  We build
  objects in the order the C++ code assigns the fields.
* The string level of the wire (`dump` / `parse`) is not modelled: nlohmann's
  `parse (dump t) = t` at the value-tree level, so `encode`/`decode` of the
  spec is modelled as the envelope-to-`Json` serializers and their inverses.
* C++ exceptions become `Except`; `MCPError` carries its code, message and
  data.  A `nlohmann::json::exception` escaping a handler (e.g. a `get<T>`
  type error) is modelled as a distinct `stdExc` alternative, because
  `MCPServer::handleRequest` maps it to `InternalError` via its
  `catch (std::exception)` clause.
* `std::getline`-based input is modelled over `List Char`.
* The C++ `int` narrowing performed by `get<int>` during deserialization is
  modelled by `toInt32` (two's-complement wrap), the behaviour on the
  platforms the SDK targets.
-/

/-- JSON value trees as produced by nlohmann::json parsing: integers and
floating-point numbers are distinct storage types (`is_number_integer`
distinguishes them). -/
inductive Json where
  | null : Json
  | bool : Bool → Json
  | int : Int → Json
  | float : Rat → Json
  | str : String → Json
  | arr : List Json → Json
  | obj : List (String × Json) → Json

/-- Field lookup in an object member list (first match; keys are unique in
documents produced by nlohmann). -/
def jsonFind : List (String × Json) → String → Option Json
  | [], _ => none
  | (k, v) :: rest, key => if k = key then some v else jsonFind rest key

/-- `j[key]` read access: only objects have members (`contains` is false on
every non-object value in nlohmann). -/
def Json.lookup : Json → String → Option Json
  | .obj kvs, key => jsonFind kvs key
  | _, _ => none

/-- `j.contains(key)`. -/
def Json.containsKey (j : Json) (key : String) : Bool :=
  (j.lookup key).isSome

/-- `j.is_null()`. -/
def Json.isNull : Json → Bool
  | .null => true
  | _ => false

/-- C++ `int` narrowing of a wider integer (two's-complement wrap), applied
by `get<int>()` when the parsed integer is stored as `int64_t`. -/
def toInt32 (n : Int) : Int :=
  (n + 2 ^ 31) % 2 ^ 32 - 2 ^ 31

/-- `RequestId` from `types_simple.hpp`:
`std::variant<std::nullptr_t, int, std::string> id`, default `nullptr`.
`Message::id_` is `std::optional<RequestId>`, but every deserialized message
carries a value (the deserializers always pass a `RequestId` to the
constructor), and `serialize` emits nothing for both `nullopt` and the
`nullptr` alternative, so the two are collapsed into `RequestId.null`. -/
inductive RequestId where
  | null : RequestId
  | int : Int → RequestId
  | str : String → RequestId
  deriving DecidableEq, Repr

/-- `ErrorCode` from `error_simple.hpp`.  The underlying C++ enum values are
the wire codes, given by `ErrorCode.toWireInt` below. -/
inductive ErrorCode where
  | ParseError | InvalidRequest | MethodNotFound | InvalidParams | InternalError
  | InvalidMethod | ResourceNotFound | ResourceNotAvailable | ResourceExhausted
  | ContentModified | UnknownErrorCode
  deriving DecidableEq, Repr

/-- The numeric value of each `ErrorCode` enumerator (`static_cast<int>`),
as fixed in `error_simple.hpp`. -/
def ErrorCode.toWireInt : ErrorCode → Int
  | .ParseError => -32700
  | .InvalidRequest => -32600
  | .MethodNotFound => -32601
  | .InvalidParams => -32602
  | .InternalError => -32603
  | .InvalidMethod => -32604
  | .ResourceNotFound => -32606
  | .ResourceNotAvailable => -32607
  | .ResourceExhausted => -32608
  | .ContentModified => -32609
  | .UnknownErrorCode => -32000

/-- `errorCodeFromInt` from `error.cpp` (switch over the wire codes,
default `UnknownErrorCode`). -/
def errorCodeFromInt (code : Int) : ErrorCode :=
  if code = -32700 then .ParseError
  else if code = -32600 then .InvalidRequest
  else if code = -32601 then .MethodNotFound
  else if code = -32602 then .InvalidParams
  else if code = -32603 then .InternalError
  else if code = -32604 then .InvalidMethod
  else if code = -32606 then .ResourceNotFound
  else if code = -32607 then .ResourceNotAvailable
  else if code = -32608 then .ResourceExhausted
  else if code = -32609 then .ContentModified
  else .UnknownErrorCode

/-- `errorCodeToInt` from `error.cpp` (switch; default `-32000`). -/
def errorCodeToInt : ErrorCode → Int
  | .ParseError => -32700
  | .InvalidRequest => -32600
  | .MethodNotFound => -32601
  | .InvalidParams => -32602
  | .InternalError => -32603
  | .InvalidMethod => -32604
  | .ResourceNotFound => -32606
  | .ResourceNotAvailable => -32607
  | .ResourceExhausted => -32608
  | .ContentModified => -32609
  | .UnknownErrorCode => -32000

/-- `MCPError` (error_simple variant used by `message.cpp` / `server.cpp`):
code, message (`what()`), and a json `data` payload defaulting to null. -/
structure MCPErr where
  code : ErrorCode
  message : String
  data : Json

/-- `MCPError::toJson` from `error.cpp`: `{code, message}` plus `data` when
it is not null.  The emitted code is `static_cast<int>(code_)`. -/
def MCPErr.toJson (e : MCPErr) : Json :=
  .obj ([("code", .int e.code.toWireInt), ("message", .str e.message)]
    ++ (if e.data.isNull then [] else [("data", e.data)]))

/-- `Request` as built by `message.cpp` (`id`, `method`, `params`; params is
a json value, null meaning "not set"). -/
structure Request where
  id : RequestId
  method : String
  params : Json

/-- `Response`: `result_` always holds a value (the error constructor sets it
to the empty object) and `error_` is optional — `message.cpp` lines 99–128. -/
structure Response where
  id : RequestId
  result : Json
  error : Option MCPErr

/-- `Notification`: method and params, no id. -/
structure Notification where
  method : String
  params : Json

/-- The id member emitted by `Request::serialize` / `Response::serialize`:
present for the `int` and `string` alternatives only. -/
def RequestId.serializeField : RequestId → List (String × Json)
  | .int n => [("id", .int n)]
  | .str s => [("id", .str s)]
  | .null => []

/-- `Request::serialize` (message.cpp lines 47–65). -/
def Request.serialize (r : Request) : Json :=
  .obj ([("jsonrpc", .str "2.0"), ("method", .str r.method)]
    ++ r.id.serializeField
    ++ (if r.params.isNull then [] else [("params", r.params)]))

/-- The `jsonrpc` guard shared by all three deserializers:
`!json.contains("jsonrpc") || json["jsonrpc"] != "2.0"`. -/
def jsonrpcOk (doc : Json) : Bool :=
  match doc.lookup "jsonrpc" with
  | some (.str s) => s = "2.0"
  | _ => false

/-- Id parsing in `Request::deserialize`: integer and string ids accepted,
any other present id type rejected, absent id left at the default
(`nullptr`). -/
def parseRequestId (doc : Json) : Except MCPErr RequestId :=
  match doc.lookup "id" with
  | none => .ok .null
  | some (.int n) => .ok (.int (toInt32 n))
  | some (.str s) => .ok (.str s)
  | some _ => .error ⟨.InvalidRequest, "Invalid id type", .null⟩

/-- `Request::deserialize` (message.cpp lines 67–97), applied to an already
parsed document.  A `get<std::string>` type error on a non-string `method`
is a `nlohmann::json::exception`, which the enclosing catch converts to
`ParseError`. -/
def Request.deserialize (doc : Json) : Except MCPErr Request :=
  if !jsonrpcOk doc then
    .error ⟨.InvalidRequest, "Invalid JSON-RPC version", .null⟩
  else if !doc.containsKey "method" then
    .error ⟨.InvalidRequest, "Missing method", .null⟩
  else
    match parseRequestId doc with
    | .error e => .error e
    | .ok id =>
      match doc.lookup "method" with
      | some (.str m) =>
          .ok ⟨id, m, (doc.lookup "params").getD (.obj [])⟩
      | _ => .error ⟨.ParseError, "Failed to parse JSON: type error", .null⟩

/-- `Response::serialize` (message.cpp lines 130–149): emits `error` when an
error is held, otherwise `result` — never both. -/
def Response.serialize (r : Response) : Json :=
  .obj ([("jsonrpc", .str "2.0")]
    ++ r.id.serializeField
    ++ (match r.error with
        | some e => [("error", e.toJson)]
        | none => [("result", r.result)]))

/-- Id parsing in `Response::deserialize`: no rejection branch — a present id
of any other type is silently left at the default `nullptr`. -/
def parseResponseId (doc : Json) : RequestId :=
  match doc.lookup "id" with
  | some (.int n) => .int (toInt32 n)
  | some (.str s) => .str s
  | _ => .null

/-- The `error` member parse in `Response::deserialize`:
`errorJson["code"].get<int>()` converts a float code by truncation and
throws a json exception (→ `ParseError`) on a missing or non-numeric code;
`message` defaults to `""`; `data` defaults to the empty object. -/
def parseErrorMessageField (errorJson : Json) : Except MCPErr String :=
  match errorJson.lookup "message" with
  | some (.str s) => .ok s
  | none => .ok ""
  | some _ => .error ⟨.ParseError, "Failed to parse JSON: type error", .null⟩

/-- The integer read by `errorJson["code"].get<int>()`: stored integers
narrow to `int`; stored floats convert by truncation; anything else throws. -/
def parseErrorCodeField (errorJson : Json) : Except MCPErr Int :=
  match errorJson.lookup "code" with
  | some (.int n) => .ok (toInt32 n)
  | some (.float q) => .ok (toInt32 (q.num / (q.den : Int)))
  | _ => .error ⟨.ParseError, "Failed to parse JSON: type error", .null⟩

def parseErrorMember (errorJson : Json) : Except MCPErr MCPErr := do
  let code ← parseErrorCodeField errorJson
  let msg ← parseErrorMessageField errorJson
  return ⟨errorCodeFromInt code, msg, (errorJson.lookup "data").getD (.obj [])⟩

/-- `Response::deserialize` (message.cpp lines 151–184): the `error` member
is examined first; a document carrying both `error` and `result` is accepted
as an error response; one carrying neither is rejected. -/
def Response.deserialize (doc : Json) : Except MCPErr Response :=
  if !jsonrpcOk doc then
    .error ⟨.InvalidRequest, "Invalid JSON-RPC version", .null⟩
  else
    let id := parseResponseId doc
    match doc.lookup "error" with
    | some errorJson =>
        (parseErrorMember errorJson).map fun e => ⟨id, .obj [], some e⟩
    | none =>
      match doc.lookup "result" with
      | some result => .ok ⟨id, result, none⟩
      | none => .error ⟨.InvalidRequest, "Missing result or error", .null⟩

/-- `Notification::serialize` (message.cpp lines 208–218). -/
def Notification.serialize (n : Notification) : Json :=
  .obj ([("jsonrpc", .str "2.0"), ("method", .str n.method)]
    ++ (if n.params.isNull then [] else [("params", n.params)]))

/-- `Notification::deserialize` (message.cpp lines 220–243): rejects any
document that carries an `id`. -/
def Notification.deserialize (doc : Json) : Except MCPErr Notification :=
  if !jsonrpcOk doc then
    .error ⟨.InvalidRequest, "Invalid JSON-RPC version", .null⟩
  else if !doc.containsKey "method" then
    .error ⟨.InvalidRequest, "Missing method", .null⟩
  else if doc.containsKey "id" then
    .error ⟨.InvalidRequest, "Notifications cannot have id", .null⟩
  else
    match doc.lookup "method" with
    | some (.str m) =>
        .ok ⟨m, (doc.lookup "params").getD (.obj [])⟩
    | _ => .error ⟨.ParseError, "Failed to parse JSON: type error", .null⟩

/-! ## Server (`server.cpp`) -/

/-- A registered tool: its metadata and handler.  A handler that throws a
`std::exception` is modelled by `Except.error` carrying `what()`. -/
structure ToolInfo where
  name : String
  description : String
  inputSchema : Json

structure ToolEntry where
  info : ToolInfo
  handler : Json → Except String Json

structure ResourceInfo where
  name : String
  description : String
  mimeType : String

structure ResourceEntry where
  info : ResourceInfo
  handler : Unit → Except String Json

structure PromptInfo where
  description : String
  arguments : Json

structure PromptEntry where
  info : PromptInfo
  handler : Json → Except String Json

/-- Registry lookup (`std::map::find`). -/
def regFind {α : Type} : List (String × α) → String → Option α
  | [], _ => none
  | (k, v) :: rest, key => if k = key then some v else regFind rest key

/-- `MCPServer` state: the three registries, the `initialized_` and
`running_` flags, and the configured server info.  Registries are keyed maps
(`std::map`); they are modelled as association lists. -/
structure ServerState where
  tools : List (String × ToolEntry)
  resources : List (String × ResourceEntry)
  prompts : List (String × PromptEntry)
  initialized : Bool
  running : Bool
  serverName : String
  serverVersion : String

/-- A failure escaping a method handler into `handleRequest`'s catch
clauses: either an `MCPError`, or some other `std::exception` (e.g. a
nlohmann type error), which the catch-all converts to `InternalError`. -/
inductive HandlerExc where
  | mcp : MCPErr → HandlerExc
  | stdExc : String → HandlerExc

/-- `ToolRegistry::callTool` (tools.cpp lines 29–40): unknown tool throws
`MethodNotFound`; a handler exception is rethrown as `InternalError`. -/
def callTool (tools : List (String × ToolEntry)) (name : String) (args : Json) :
    Except HandlerExc Json :=
  match regFind tools name with
  | none => .error (.mcp ⟨.MethodNotFound, "Tool not found: " ++ name, .null⟩)
  | some entry =>
    match entry.handler args with
    | .ok r => .ok r
    | .error w => .error (.mcp ⟨.InternalError, "Tool execution error: " ++ w, .null⟩)

/-- `ResourceRegistry::readResource` (resources.cpp lines 29–40). -/
def readResource (resources : List (String × ResourceEntry)) (uri : String) :
    Except HandlerExc Json :=
  match regFind resources uri with
  | none => .error (.mcp ⟨.ResourceNotFound, "Resource not found: " ++ uri, .null⟩)
  | some entry =>
    match entry.handler () with
    | .ok r => .ok r
    | .error w => .error (.mcp ⟨.InternalError, "Resource read error: " ++ w, .null⟩)

/-- `PromptRegistry::getPrompt` (prompts.cpp lines 30–41). -/
def getPrompt (prompts : List (String × PromptEntry)) (name : String) (args : Json) :
    Except HandlerExc Json :=
  match regFind prompts name with
  | none => .error (.mcp ⟨.MethodNotFound, "Prompt not found: " ++ name, .null⟩)
  | some entry =>
    match entry.handler args with
    | .ok r => .ok r
    | .error w => .error (.mcp ⟨.InternalError, "Prompt execution error: " ++ w, .null⟩)

/-- `MCPServer::handleInitialize` (server.cpp lines 167–204): validates
`clientInfo`, then answers with the hard-coded protocol version
`"2024-11-05"`, a capability object holding one empty sub-object per
non-empty registry (remaining the null value when every registry is empty,
since `nlohmann::json capabilities;` starts null and is never assigned),
and the configured server info.  The client's `protocolVersion` parameter
is never read. -/
def handleInitialize (s : ServerState) (params : Json) : Except HandlerExc Json :=
  match params.lookup "clientInfo" with
  | none => .error (.mcp ⟨.InvalidParams, "Missing clientInfo", .null⟩)
  | some clientInfo =>
    if !(clientInfo.containsKey "name") || !(clientInfo.containsKey "version") then
      .error (.mcp ⟨.InvalidParams, "Invalid clientInfo", .null⟩)
    else
      let capList :=
        (if s.tools.isEmpty then [] else [("tools", Json.obj [])])
        ++ (if s.resources.isEmpty then [] else [("resources", Json.obj [])])
        ++ (if s.prompts.isEmpty then [] else [("prompts", Json.obj [])])
      let capabilities := match capList with
        | [] => Json.null
        | l => Json.obj l
      .ok (.obj [("protocolVersion", .str "2024-11-05"),
                 ("capabilities", capabilities),
                 ("serverInfo", .obj [("name", .str s.serverName),
                                      ("version", .str s.serverVersion)])])

/-- `MCPServer::handleToolCall` (server.cpp lines 206–215): requires a
`name` member (`get<std::string>` on a non-string name throws a json
exception), defaults `arguments` to the empty object, and forwards the
tool handler's json result verbatim. -/
def handleToolCall (s : ServerState) (params : Json) : Except HandlerExc Json :=
  match params.lookup "name" with
  | none => .error (.mcp ⟨.InvalidParams, "Missing tool name", .null⟩)
  | some (.str name) =>
      callTool s.tools name ((params.lookup "arguments").getD (.obj []))
  | some _ => .error (.stdExc "type error")

/-- `MCPServer::handleToolsList` (server.cpp lines 217–230). -/
def handleToolsList (s : ServerState) : Except HandlerExc Json :=
  .ok (.obj [("tools", .arr (s.tools.map fun t =>
    .obj [("name", .str t.1), ("description", .str t.2.info.description),
          ("inputSchema", t.2.info.inputSchema)]))])

/-- `MCPServer::handleResourceRead` (server.cpp lines 232–240). -/
def handleResourceRead (s : ServerState) (params : Json) : Except HandlerExc Json :=
  match params.lookup "uri" with
  | none => .error (.mcp ⟨.InvalidParams, "Missing resource URI", .null⟩)
  | some (.str uri) => readResource s.resources uri
  | some _ => .error (.stdExc "type error")

/-- `MCPServer::handleResourcesList` (server.cpp lines 242–256). -/
def handleResourcesList (s : ServerState) : Except HandlerExc Json :=
  .ok (.obj [("resources", .arr (s.resources.map fun r =>
    .obj [("uri", .str r.1), ("name", .str r.2.info.name),
          ("description", .str r.2.info.description),
          ("mimeType", .str r.2.info.mimeType)]))])

/-- `MCPServer::handlePromptGet` (server.cpp lines 258–267). -/
def handlePromptGet (s : ServerState) (params : Json) : Except HandlerExc Json :=
  match params.lookup "name" with
  | none => .error (.mcp ⟨.InvalidParams, "Missing prompt name", .null⟩)
  | some (.str name) =>
      getPrompt s.prompts name ((params.lookup "arguments").getD (.obj []))
  | some _ => .error (.stdExc "type error")

/-- `MCPServer::handlePromptsList` (server.cpp lines 269–282). -/
def handlePromptsList (s : ServerState) : Except HandlerExc Json :=
  .ok (.obj [("prompts", .arr (s.prompts.map fun p =>
    .obj [("name", .str p.1), ("description", .str p.2.info.description),
          ("arguments", p.2.info.arguments)]))])

/-- The known-method set dispatched by `handleRequest`'s if/else ladder.
Note: the dispatch consults neither the phase (`initialized_`) nor any
other session state before executing a handler, and `ping` has no branch. -/
def dispatchMethod (s : ServerState) (method : String) (params : Json) :
    Except HandlerExc Json :=
  if method = "initialize" then handleInitialize s params
  else if method = "tools/call" then handleToolCall s params
  else if method = "tools/list" then handleToolsList s
  else if method = "resources/read" then handleResourceRead s params
  else if method = "resources/list" then handleResourcesList s
  else if method = "prompts/get" then handlePromptGet s params
  else if method = "prompts/list" then handlePromptsList s
  else .error (.mcp ⟨.MethodNotFound, "Method not found: " ++ method, .null⟩)

/-- `MCPServer::handleRequest` (server.cpp lines 109–154): dispatch, then on
success serialize `Response(id, result)`; an `MCPError` becomes
`Response(id, e)`; any other exception becomes an `InternalError` response.
Exactly one frame is written to the transport in every case, and the server
state (in particular the three registries) is never modified.  The write's
success indication is ignored on the error paths and, on the success path,
a failed write would throw into the catch-all; frame delivery is modelled
as always succeeding. -/
def handleRequest (s : ServerState) (req : Request) : ServerState × List Json :=
  match dispatchMethod s req.method req.params with
  | .ok result => (s, [Response.serialize ⟨req.id, result, none⟩])
  | .error (.mcp e) => (s, [Response.serialize ⟨req.id, .obj [], some e⟩])
  | .error (.stdExc w) =>
      (s, [Response.serialize
        ⟨req.id, .obj [], some ⟨.InternalError, "Internal error: " ++ w, .null⟩⟩])

/-- `MCPServer::handleNotification` (server.cpp lines 156–165): only
`notifications/initialized` has an effect — it sets `initialized_`. -/
def handleNotification (s : ServerState) (n : Notification) : ServerState :=
  if n.method = "notifications/initialized" then { s with initialized := true } else s

/-- `MCPServer::handleMessage` (server.cpp lines 86–107) on one inbound
frame.  `none` stands for a frame that is not parseable JSON (the
`nlohmann::json::parse` failure inside `Request::deserialize` becomes a
`ParseError` `MCPError`).  Every exception thrown by
`Request::deserialize` — parse failure included — is caught by the
enclosing `catch`, which only logs: no frame is written and the transport
is left untouched.  When deserialization succeeds the returned request
always carries an id value (`Request::deserialize` always passes a
`RequestId` to the constructor, absent wire ids becoming the `nullptr`
alternative), so the `getId().has_value()` guard is always true and
`handleRequest` runs; the `Notification::deserialize` branch of the C++
code is unreachable. -/
def handleMessage (s : ServerState) (input : Option Json) : ServerState × List Json :=
  match input with
  | none => (s, [])
  | some doc =>
    match Request.deserialize doc with
    | .ok req => handleRequest s req
    | .error _ => (s, [])

/-! ## Client (`client.cpp`) -/

/-- `std::map<RequestId, std::shared_ptr<std::promise<Response>>>` keyed by
`RequestId` (comparison per `types_simple.cpp`, which coincides with
structural equality).  Promises are identified by tokens. -/
def PendingMap := List (RequestId × Nat)

def pendingFind : List (RequestId × Nat) → RequestId → Option Nat
  | [], _ => none
  | (k, v) :: rest, key => if k = key then some v else pendingFind rest key

/-- `map.erase(key)` on the unique-key map: removes the (first) entry with
that key. -/
def pendingErase : List (RequestId × Nat) → RequestId → List (RequestId × Nat)
  | [], _ => []
  | (k, v) :: rest, key =>
      if k = key then rest else (k, v) :: pendingErase rest key

/-- `map[key] = value`: overwrite when present, insert otherwise. -/
def pendingInsert : List (RequestId × Nat) → RequestId → Nat → List (RequestId × Nat)
  | [], key, value => [(key, value)]
  | (k, v) :: rest, key, value =>
      if k = key then (k, value) :: rest else (k, v) :: pendingInsert rest key value

/-- `MCPClient` state relevant to request correlation: the pending-request
map, the `request_id_counter_`, the `initialized_` flag, and a counter used
to model the allocation of fresh promise objects. -/
structure ClientState where
  pending : List (RequestId × Nat)
  counter : Int
  initialized : Bool
  nextPromise : Nat

/-- What `MCPClient::handleResponse` did with one inbound response. -/
structure HandleResponseEffect where
  state : ClientState
  /-- `promise->set_value` calls performed: (promise token, payload). -/
  completed : List (Nat × Response)
  /-- frames written to the transport (the function contains no write call). -/
  framesSent : List Json
  /-- `true` when the unknown-id warning was logged. -/
  diagnostic : Bool

/-- `MCPClient::handleResponse` (client.cpp lines 200–221).  The
`getId().has_value()` guard is always satisfied for deserialized responses
(see `handleMessage` note above), so the id is taken directly.  A hit
erases the entry and completes the promise once; a miss logs a warning and
drops the response.  No transport write occurs on either path. -/
def MCPClient.handleResponse (st : ClientState) (resp : Response) :
    HandleResponseEffect :=
  match pendingFind st.pending resp.id with
  | some p =>
      { state := { st with pending := pendingErase st.pending resp.id }
        completed := [(p, resp)]
        framesSent := []
        diagnostic := false }
  | none =>
      { state := st, completed := [], framesSent := [], diagnostic := true }

/-- The future returned by `MCPClient::sendRequest`: either still pending on
a promise, or already resolved with the "Failed to send request"
exception. -/
inductive SendFuture where
  | pendingOn : Nat → SendFuture
  | failed : String → SendFuture
  deriving DecidableEq, Repr

/-- `MCPClient::sendRequest` (client.cpp lines 148–175): allocate the id
(`++request_id_counter_`), create a fresh promise, insert it into
`pending_requests_`, then write.  When the transport write fails the entry
just inserted is erased again and the promise is resolved with an
exception.  `writeOk` is the result of `transport_->write`. -/
def MCPClient.sendRequest (st : ClientState) (method : String) (params : Json)
    (writeOk : Bool) : ClientState × SendFuture :=
  let newCounter := st.counter + 1
  let id : RequestId := .int newCounter
  let promise := st.nextPromise
  let inserted := pendingInsert st.pending id promise
  let _req : Request := ⟨id, method, params⟩
  if writeOk then
    ({ st with counter := newCounter, nextPromise := st.nextPromise + 1,
               pending := inserted },
     .pendingOn promise)
  else
    ({ st with counter := newCounter, nextPromise := st.nextPromise + 1,
               pending := pendingErase inserted id },
     .failed "Failed to send request")

/-! ## Stdio transport read loop (`stdio_transport.cpp`) -/

/-- The reader loop of `StdioTransport::connect` (stdio_transport.cpp lines
24–31), `while (running_ && std::getline(std::cin, line)) { if
(!line.empty() && onMessage) onMessage(line); }`, consuming the input
stream character by character.  `acc` is the partial line `getline` has
accumulated so far.  A `'\n'` completes the current line (the terminator is
discarded; the line is delivered only when non-empty); at end of input
`getline` still succeeds on a non-empty final unterminated line and fails —
ending the loop — only once no character remains.  The result is the list
of frames handed to the message callback, in order. -/
def stdioLoopAux : List Char → List Char → List (List Char)
  | [], acc => if acc.isEmpty then [] else [acc]
  | c :: rest, acc =>
      if c = '\n' then
        (if acc.isEmpty then [] else [acc]) ++ stdioLoopAux rest []
      else stdioLoopAux rest (acc ++ [c])

/-- The frames delivered by the stdio reader for a complete input stream. -/
def stdioReadLoop (cs : List Char) : List (List Char) :=
  stdioLoopAux cs []

/-- Modelled from the spec: "Reader is line-oriented; one JSON document per
line (terminated by `\n`)" — the input stream split at every newline, the
plain line decomposition against which the read loop is compared. -/
def specLineSplit : List Char → List (List Char)
  | [] => [[]]
  | c :: rest =>
      if c = '\n' then [] :: specLineSplit rest
      else
        match specLineSplit rest with
        | [] => [[c]]
        | l :: ls => (c :: l) :: ls

/-! ## Shared lemmas -/

theorem toInt32_eq_self {n : Int} (h1 : -(2 ^ 31) ≤ n) (h2 : n < 2 ^ 31) :
    toInt32 n = n := by
  unfold toInt32
  omega

/-- The wire representation of an id, for stating what a serialized frame's
`id` member must be: absent for the null alternative. -/
def RequestId.onWire : RequestId → Option Json
  | .null => none
  | .int n => some (.int n)
  | .str s => some (.str s)

theorem serialize_error_response_fields (i : RequestId) (e : MCPErr) :
    (Response.serialize ⟨i, .obj [], some e⟩).lookup "id" = i.onWire ∧
    (Response.serialize ⟨i, .obj [], some e⟩).lookup "error" = some e.toJson ∧
    (Response.serialize ⟨i, .obj [], some e⟩).lookup "result" = none := by
  cases i <;>
    simp [Response.serialize, RequestId.serializeField, RequestId.onWire,
      Json.lookup, jsonFind]

theorem serialize_success_response_fields (i : RequestId) (r : Json) :
    (Response.serialize ⟨i, r, none⟩).lookup "id" = i.onWire ∧
    (Response.serialize ⟨i, r, none⟩).lookup "result" = some r ∧
    (Response.serialize ⟨i, r, none⟩).lookup "error" = none := by
  cases i <;>
    simp [Response.serialize, RequestId.serializeField, RequestId.onWire,
      Json.lookup, jsonFind]

/-- C1 — failing input.  A freshly connected server (`initialized_ = false`,
i.e. phase is not READY: no `notifications/initialized` has been received)
receives the non-handshake request
`{"jsonrpc":"2.0","id":1,"method":"tools/list"}`.  The claim requires an
INVALID_REQUEST (-32600) error response; the code instead executes the
`tools/list` handler and answers with a success result — `handleRequest`
never consults the `initialized_` flag before dispatching. -/
theorem c1_request_executed_before_initialized :
    (ServerState.mk [] [] [] false true "srv" "1").initialized = false ∧
    handleMessage (ServerState.mk [] [] [] false true "srv" "1")
        (some (.obj [("jsonrpc", .str "2.0"), ("id", .int 1),
                     ("method", .str "tools/list")])) =
      (ServerState.mk [] [] [] false true "srv" "1",
       [.obj [("jsonrpc", .str "2.0"), ("id", .int 1),
              ("result", .obj [("tools", .arr [])])]]) ∧
    Json.lookup (.obj [("jsonrpc", .str "2.0"), ("id", .int 1),
              ("result", .obj [("tools", .arr [])])]) "error" = none := by
  refine ⟨rfl, ?_, rfl⟩
  rfl

/-- C5: an inbound request whose method is none of the seven dispatched
methods is answered by exactly one response frame carrying the request's id
and error code -32601, and the server state — the tool, resource and
prompt registries included — is unchanged. -/
theorem c5_unknown_method_error (s : ServerState) (req : Request)
    (h1 : req.method ≠ "initialize") (h2 : req.method ≠ "tools/call")
    (h3 : req.method ≠ "tools/list") (h4 : req.method ≠ "resources/read")
    (h5 : req.method ≠ "resources/list") (h6 : req.method ≠ "prompts/get")
    (h7 : req.method ≠ "prompts/list") :
    (handleRequest s req).1 = s ∧
    (handleRequest s req).1.tools = s.tools ∧
    (handleRequest s req).1.resources = s.resources ∧
    (handleRequest s req).1.prompts = s.prompts ∧
    (handleRequest s req).2 =
      [Response.serialize ⟨req.id, .obj [],
        some ⟨.MethodNotFound, "Method not found: " ++ req.method, .null⟩⟩] ∧
    ∀ frame ∈ (handleRequest s req).2,
      frame.lookup "id" = req.id.onWire ∧
      (frame.lookup "error").bind (fun e => e.lookup "code") =
        some (.int (-32601)) ∧
      frame.lookup "result" = none := by
  have hd : dispatchMethod s req.method req.params =
      .error (.mcp ⟨.MethodNotFound, "Method not found: " ++ req.method, .null⟩) := by
    simp [dispatchMethod, h1, h2, h3, h4, h5, h6, h7]
  refine ⟨?_, ?_, ?_, ?_, ?_, ?_⟩ <;>
    simp only [handleRequest, hd]
  intro frame hf
  simp only [List.mem_singleton] at hf
  subst hf
  obtain ⟨hid, herr, hres⟩ := serialize_error_response_fields req.id
    ⟨.MethodNotFound, "Method not found: " ++ req.method, .null⟩
  refine ⟨hid, ?_, hres⟩
  rw [herr]
  simp [MCPErr.toJson, Json.lookup, jsonFind, Json.isNull, ErrorCode.toWireInt]

/-- C5 — witness at request `{"jsonrpc":"2.0","id":4,"method":"nope"}` on a
server with empty registries. -/
theorem c5_unknown_method_error_witness :
    (handleRequest (ServerState.mk [] [] [] true true "srv" "1")
        ⟨.int 4, "nope", .obj []⟩).2 =
      [Response.serialize ⟨.int 4, .obj [],
        some ⟨.MethodNotFound, "Method not found: " ++ "nope", .null⟩⟩] :=
  (c5_unknown_method_error (ServerState.mk [] [] [] true true "srv" "1")
    ⟨.int 4, "nope", .obj []⟩ (by decide) (by decide) (by decide) (by decide)
    (by decide) (by decide) (by decide)).2.2.2.2.1

/-- C6 — counterexample.  On an unparseable inbound byte sequence the
server emits no frame at all (`handleMessage` catches the parse exception
and only logs), so the claimed single -32700 error frame is absent: the
emitted frame count is 0, not 1. -/
theorem c6_parse_error_counterexample :
    ((handleMessage (ServerState.mk [] [] [] false true "srv" "1") none).2.length
      = 0) ∧ (0 : Nat) ≠ 1 :=
  ⟨rfl, by decide⟩

/-- C6 — amended: for every inbound byte sequence that is not parseable
JSON, the server emits no frame whatsoever and the session/transport state
is left completely unchanged (in particular it is not closed); the failure
is only logged. -/
theorem c6_parse_error_no_frame_session_open (s : ServerState) :
    handleMessage s none = (s, []) := rfl

/-- C2 — counterexample.  A client proposing protocol version
`"2025-06-18"` (and supporting only that version) receives a *success*
response whose `protocolVersion` is `"2024-11-05"` — a version the client
never offered — instead of the claimed error listing the server's supported
versions: `handleInitialize` never reads the client's `protocolVersion`
parameter. -/
theorem c2_version_negotiation_counterexample :
    handleMessage (ServerState.mk [] [] [] false true "srv" "1")
        (some (.obj [("jsonrpc", .str "2.0"), ("id", .int 1),
          ("method", .str "initialize"),
          ("params", .obj [("protocolVersion", .str "2025-06-18"),
            ("clientInfo", .obj [("name", .str "c"), ("version", .str "1")]),
            ("capabilities", .obj [])])])) =
      (ServerState.mk [] [] [] false true "srv" "1",
       [.obj [("jsonrpc", .str "2.0"), ("id", .int 1),
          ("result", .obj [("protocolVersion", .str "2024-11-05"),
            ("capabilities", .null),
            ("serverInfo", .obj [("name", .str "srv"),
                                 ("version", .str "1")])])]]) ∧
    "2024-11-05" ≠ "2025-06-18" := by
  refine ⟨?_, by decide⟩
  rfl

/-- C2 — amended: for every initialize request carrying a well-formed
`clientInfo`, the server replies with a *success* result whose
`protocolVersion` is the fixed string "2024-11-05" independent of the
version the client proposed (no version comparison is performed and no
version-mismatch error path exists), whose `capabilities` value holds one
empty sub-object per non-empty registry (remaining JSON null when all three
registries are empty), and whose `serverInfo` carries the configured server
name and version. -/
theorem c2_initialize_fixed_version (s : ServerState) (params : Json)
    (ci : Json) (hci : params.lookup "clientInfo" = some ci)
    (hname : ci.containsKey "name" = true)
    (hver : ci.containsKey "version" = true) :
    handleInitialize s params =
      .ok (.obj [("protocolVersion", .str "2024-11-05"),
        ("capabilities",
          match (if s.tools.isEmpty then [] else [("tools", Json.obj [])])
            ++ (if s.resources.isEmpty then [] else [("resources", Json.obj [])])
            ++ (if s.prompts.isEmpty then [] else [("prompts", Json.obj [])]) with
          | [] => Json.null
          | l => Json.obj l),
        ("serverInfo", .obj [("name", .str s.serverName),
                             ("version", .str s.serverVersion)])]) := by
  simp [handleInitialize, hci, hname, hver]

/-- C2 — witness for the amended theorem at a concrete initialize request
on a server with one registered tool. -/
theorem c2_initialize_fixed_version_witness :
    handleInitialize
      (ServerState.mk [("echo", ⟨⟨"echo", "d", .obj []⟩, fun j => .ok j⟩)]
        [] [] false true "srv" "1")
      (.obj [("protocolVersion", .str "2099-01-01"),
        ("clientInfo", .obj [("name", .str "c"), ("version", .str "1")])]) =
      .ok (.obj [("protocolVersion", .str "2024-11-05"),
        ("capabilities", .obj [("tools", .obj [])]),
        ("serverInfo", .obj [("name", .str "srv"), ("version", .str "1")])]) :=
  c2_initialize_fixed_version
    (ServerState.mk [("echo", ⟨⟨"echo", "d", .obj []⟩, fun j => .ok j⟩)]
      [] [] false true "srv" "1")
    (.obj [("protocolVersion", .str "2099-01-01"),
      ("clientInfo", .obj [("name", .str "c"), ("version", .str "1")])])
    (.obj [("name", .str "c"), ("version", .str "1")]) rfl rfl rfl

/-! ## C3: codec round-trip -/

theorem isNull_eq_false {p : Json} (h : p ≠ .null) : p.isNull = false := by
  cases p <;> simp_all [Json.isNull]

theorem toInt32_toWireInt (c : ErrorCode) : toInt32 c.toWireInt = c.toWireInt := by
  cases c <;> decide

theorem errorCodeFromInt_toWireInt (c : ErrorCode) :
    errorCodeFromInt c.toWireInt = c := by
  cases c <;> decide

/-- C3 — counterexample.  The request `{id:1, method:"m"}` with params *not
set* (the null json value) does not survive the round-trip: `serialize`
omits the `params` member, and `deserialize` materializes an absent
`params` as the *empty object*, so the decoded envelope differs from the
original. -/
theorem c3_round_trip_counterexample :
    Request.deserialize (Request.serialize ⟨.int 1, "m", .null⟩) =
      .ok ⟨.int 1, "m", .obj []⟩ ∧
    Json.obj [] ≠ Json.null := by
  refine ⟨?_, fun h => Json.noConfusion h⟩
  rfl

/-- C3 — amended: the round-trip `decode (encode E) = E` holds for every
envelope whose optional `params` (for Request/Notification) and error
`data` (for Response) are *present* (non-null) — an absent `params` or
error `data` is re-decoded as the empty object, which is the only
deviation — with integer ids preserved exactly as integers (never coerced
to float or string) whenever they fit the C++ `int` range, and error
responses carrying the empty-object `result_` the C++ constructor gives
them. -/
theorem c3_round_trip_amended :
    (∀ r : Request, r.params ≠ .null →
      (∀ n, r.id = .int n → -(2 ^ 31) ≤ n ∧ n < 2 ^ 31) →
      Request.deserialize (Request.serialize r) = .ok r) ∧
    (∀ nt : Notification, nt.params ≠ .null →
      Notification.deserialize (Notification.serialize nt) = .ok nt) ∧
    (∀ resp : Response,
      (∀ n, resp.id = .int n → -(2 ^ 31) ≤ n ∧ n < 2 ^ 31) →
      (∀ e, resp.error = some e → e.data ≠ .null ∧ resp.result = .obj []) →
      Response.deserialize (Response.serialize resp) = .ok resp) := by
  refine ⟨?_, ?_, ?_⟩
  · rintro ⟨id, m, p⟩ hp hid
    have hpn : p.isNull = false := isNull_eq_false hp
    cases id with
    | null =>
      simp [Request.serialize, Request.deserialize, RequestId.serializeField,
        hpn, jsonrpcOk, Json.lookup, jsonFind, Json.containsKey, parseRequestId]
    | int n =>
      obtain ⟨h1, h2⟩ := hid n rfl
      simp [Request.serialize, Request.deserialize, RequestId.serializeField,
        hpn, jsonrpcOk, Json.lookup, jsonFind, Json.containsKey, parseRequestId,
        toInt32_eq_self h1 h2]
    | str s =>
      simp [Request.serialize, Request.deserialize, RequestId.serializeField,
        hpn, jsonrpcOk, Json.lookup, jsonFind, Json.containsKey, parseRequestId]
  · rintro ⟨m, p⟩ hp
    have hpn : p.isNull = false := isNull_eq_false hp
    simp [Notification.serialize, Notification.deserialize, hpn,
      jsonrpcOk, Json.lookup, jsonFind, Json.containsKey]
  · rintro ⟨id, res, err⟩ hid herr
    cases err with
    | none =>
      cases id with
      | null =>
        simp [Response.serialize, Response.deserialize, RequestId.serializeField,
          jsonrpcOk, Json.lookup, jsonFind, parseResponseId]
      | int n =>
        obtain ⟨h1, h2⟩ := hid n rfl
        simp [Response.serialize, Response.deserialize, RequestId.serializeField,
          jsonrpcOk, Json.lookup, jsonFind, parseResponseId,
          toInt32_eq_self h1 h2]
      | str s =>
        simp [Response.serialize, Response.deserialize, RequestId.serializeField,
          jsonrpcOk, Json.lookup, jsonFind, parseResponseId]
    | some e =>
      obtain ⟨hdata, hres⟩ := herr e rfl
      have hdn : e.data.isNull = false := isNull_eq_false hdata
      subst hres
      cases id with
      | null =>
        simp [Response.serialize, Response.deserialize, RequestId.serializeField,
          jsonrpcOk, Json.lookup, jsonFind, parseResponseId, parseErrorMember,
          parseErrorCodeField, parseErrorMessageField, MCPErr.toJson, hdn,
          toInt32_toWireInt, errorCodeFromInt_toWireInt, Except.map, bind,
          Except.bind, pure, Except.pure]
      | int n =>
        obtain ⟨h1, h2⟩ := hid n rfl
        simp [Response.serialize, Response.deserialize, RequestId.serializeField,
          jsonrpcOk, Json.lookup, jsonFind, parseResponseId, parseErrorMember,
          parseErrorCodeField, parseErrorMessageField, MCPErr.toJson, hdn,
          toInt32_toWireInt, errorCodeFromInt_toWireInt, toInt32_eq_self h1 h2,
          Except.map, bind, Except.bind, pure, Except.pure]
      | str s =>
        simp [Response.serialize, Response.deserialize, RequestId.serializeField,
          jsonrpcOk, Json.lookup, jsonFind, parseResponseId, parseErrorMember,
          parseErrorCodeField, parseErrorMessageField, MCPErr.toJson, hdn,
          toInt32_toWireInt, errorCodeFromInt_toWireInt, Except.map, bind,
          Except.bind, pure, Except.pure]

/-- C3 — witness: the amended round-trip applied to a concrete request, a
concrete notification, and a concrete error response (integer id 7, present
params and data). -/
theorem c3_round_trip_amended_witness :
    Request.deserialize (Request.serialize
        ⟨.int 7, "tools/call", .obj [("name", .str "echo")]⟩) =
      .ok ⟨.int 7, "tools/call", .obj [("name", .str "echo")]⟩ ∧
    Notification.deserialize (Notification.serialize
        ⟨"notifications/initialized", .obj []⟩) =
      .ok ⟨"notifications/initialized", .obj []⟩ ∧
    Response.deserialize (Response.serialize
        ⟨.int 7, .obj [], some ⟨.MethodNotFound, "method not found", .obj []⟩⟩) =
      .ok ⟨.int 7, .obj [], some ⟨.MethodNotFound, "method not found", .obj []⟩⟩ := by
  refine ⟨?_, ?_, ?_⟩
  · exact c3_round_trip_amended.1 ⟨.int 7, "tools/call", .obj [("name", .str "echo")]⟩
      (fun h => Json.noConfusion h)
      (fun n hn => by cases hn; exact ⟨by decide, by decide⟩)
  · exact c3_round_trip_amended.2.1 ⟨"notifications/initialized", .obj []⟩
      (fun h => Json.noConfusion h)
  · exact c3_round_trip_amended.2.2 ⟨.int 7, .obj [],
        some ⟨.MethodNotFound, "method not found", .obj []⟩⟩
      (fun n hn => by cases hn; exact ⟨by decide, by decide⟩)
      (fun e he => by cases he; exact ⟨fun h => Json.noConfusion h, rfl⟩)

/-! ## C4: result xor error -/

/-- C4 — counterexample.  An inbound Response document carrying *both*
`result` and `error` is not rejected by the codec: `Response::deserialize`
examines `error` first and accepts the document as an error response,
silently discarding `result`. -/
theorem c4_both_fields_counterexample :
    (Json.obj [("jsonrpc", .str "2.0"), ("id", .int 1),
      ("result", .obj []),
      ("error", .obj [("code", .int (-32600)), ("message", .str "boom")])]).containsKey
        "result" = true ∧
    (Json.obj [("jsonrpc", .str "2.0"), ("id", .int 1),
      ("result", .obj []),
      ("error", .obj [("code", .int (-32600)), ("message", .str "boom")])]).containsKey
        "error" = true ∧
    Response.deserialize (.obj [("jsonrpc", .str "2.0"), ("id", .int 1),
      ("result", .obj []),
      ("error", .obj [("code", .int (-32600)), ("message", .str "boom")])]) =
      .ok ⟨.int 1, .obj [], some ⟨.InvalidRequest, "boom", .obj []⟩⟩ := by
  refine ⟨rfl, rfl, ?_⟩
  rfl

/-- C4 — amended: every serialized outbound Response carries exactly one of
`result`/`error`; the codec rejects an inbound Response with *neither*
field; but an inbound Response with *both* fields is not rejected — it is
accepted with the `error` member taking precedence and `result` ignored. -/
theorem c4_result_xor_error_amended :
    (∀ resp : Response,
      (Response.serialize resp).containsKey "result"
        = !((Response.serialize resp).containsKey "error")) ∧
    (∀ doc : Json, jsonrpcOk doc = true →
      doc.lookup "error" = none → doc.lookup "result" = none →
      Response.deserialize doc =
        .error ⟨.InvalidRequest, "Missing result or error", .null⟩) ∧
    (∀ doc errJson err, jsonrpcOk doc = true →
      doc.lookup "error" = some errJson →
      parseErrorMember errJson = .ok err →
      Response.deserialize doc = .ok ⟨parseResponseId doc, .obj [], some err⟩) := by
  refine ⟨?_, ?_, ?_⟩
  · rintro ⟨id, res, err⟩
    cases err <;> cases id <;>
      simp [Response.serialize, RequestId.serializeField, Json.containsKey,
        Json.lookup, jsonFind]
  · intro doc hrpc herr hres
    simp [Response.deserialize, hrpc, herr, hres]
  · intro doc errJson err hrpc herr hperr
    simp [Response.deserialize, hrpc, herr, hperr, Except.map]

/-- C4 — witness: the amended statement applied to a concrete error
response, the rejection of a concrete neither-field document, and the
acceptance of a concrete both-fields document. -/
theorem c4_result_xor_error_amended_witness :
    (Response.serialize ⟨.int 1, .obj [], some ⟨.InvalidParams, "bad", .null⟩⟩).containsKey
        "result"
      = !((Response.serialize ⟨.int 1, .obj [],
            some ⟨.InvalidParams, "bad", .null⟩⟩).containsKey "error") ∧
    Response.deserialize (.obj [("jsonrpc", .str "2.0"), ("id", .int 2)]) =
      .error ⟨.InvalidRequest, "Missing result or error", .null⟩ ∧
    Response.deserialize (.obj [("jsonrpc", .str "2.0"), ("id", .int 3),
        ("result", .bool true),
        ("error", .obj [("code", .int (-32601)), ("message", .str "nf")])]) =
      .ok ⟨.int 3, .obj [], some ⟨.MethodNotFound, "nf", .obj []⟩⟩ := by
  refine ⟨c4_result_xor_error_amended.1
      ⟨.int 1, .obj [], some ⟨.InvalidParams, "bad", .null⟩⟩,
    c4_result_xor_error_amended.2.1 (.obj [("jsonrpc", .str "2.0"), ("id", .int 2)])
      rfl rfl rfl,
    c4_result_xor_error_amended.2.2 (.obj [("jsonrpc", .str "2.0"), ("id", .int 3),
        ("result", .bool true),
        ("error", .obj [("code", .int (-32601)), ("message", .str "nf")])])
      (.obj [("code", .int (-32601)), ("message", .str "nf")])
      ⟨.MethodNotFound, "nf", .obj []⟩ rfl rfl ?_⟩
  rfl

/-! ## C7: tools/call error delivery -/

/-- C7: on a `tools/call` request, a result the tool produced itself —
including a textual-error result such as `{content:[…], isError:true}` — is
delivered verbatim as the `result` of a *successful* JSON-RPC response (the
envelope has a `result` member and no `error` member); a JSON-RPC error
envelope arises exactly in the protocol-level cases: the `name` parameter
missing (INVALID_PARAMS), the `name` parameter of the wrong type (internal
exception → INTERNAL_ERROR), the named tool not registered
(METHOD_NOT_FOUND), or the tool handler raising an exception
(INTERNAL_ERROR). -/
theorem c7_tool_error_vs_protocol_error (s : ServerState) (i : RequestId)
    (p : Json) :
    (∀ name entry r, p.lookup "name" = some (.str name) →
      regFind s.tools name = some entry →
      entry.handler ((p.lookup "arguments").getD (.obj [])) = .ok r →
      handleRequest s ⟨i, "tools/call", p⟩ = (s, [Response.serialize ⟨i, r, none⟩]) ∧
      (Response.serialize ⟨i, r, none⟩).lookup "result" = some r ∧
      (Response.serialize ⟨i, r, none⟩).lookup "error" = none) ∧
    (p.lookup "name" = none →
      handleRequest s ⟨i, "tools/call", p⟩ =
        (s, [Response.serialize ⟨i, .obj [],
          some ⟨.InvalidParams, "Missing tool name", .null⟩⟩])) ∧
    (∀ name, p.lookup "name" = some (.str name) → regFind s.tools name = none →
      handleRequest s ⟨i, "tools/call", p⟩ =
        (s, [Response.serialize ⟨i, .obj [],
          some ⟨.MethodNotFound, "Tool not found: " ++ name, .null⟩⟩])) ∧
    (∀ name entry w, p.lookup "name" = some (.str name) →
      regFind s.tools name = some entry →
      entry.handler ((p.lookup "arguments").getD (.obj [])) = .error w →
      handleRequest s ⟨i, "tools/call", p⟩ =
        (s, [Response.serialize ⟨i, .obj [],
          some ⟨.InternalError, "Tool execution error: " ++ w, .null⟩⟩])) ∧
    (∀ v, p.lookup "name" = some v → (∀ str, v ≠ .str str) →
      handleRequest s ⟨i, "tools/call", p⟩ =
        (s, [Response.serialize ⟨i, .obj [],
          some ⟨.InternalError, "Internal error: " ++ "type error", .null⟩⟩])) := by
  refine ⟨?_, ?_, ?_, ?_, ?_⟩
  · intro name entry r hn hf hh
    refine ⟨?_, (serialize_success_response_fields i r).2.1,
      (serialize_success_response_fields i r).2.2⟩
    simp [handleRequest, dispatchMethod, handleToolCall, hn, callTool, hf, hh]
  · intro hn
    simp [handleRequest, dispatchMethod, handleToolCall, hn]
  · intro name hn hf
    simp [handleRequest, dispatchMethod, handleToolCall, hn, callTool, hf]
  · intro name entry w hn hf hh
    simp [handleRequest, dispatchMethod, handleToolCall, hn, callTool, hf, hh]
  · intro v hn hv
    have : handleToolCall s p = .error (.stdExc "type error") := by
      cases v <;> simp_all [handleToolCall]
    simp [handleRequest, dispatchMethod, this]

/-- C7 — witness.  A registered tool `fail` reports a textual error by
returning `{content:[{type:"text", text:"boom"}], isError:true}`: the
envelope delivered is a *successful* response with that object as its
result; and calling an unregistered tool on the same server yields the
METHOD_NOT_FOUND error envelope. -/
theorem c7_tool_error_vs_protocol_error_witness :
    handleRequest
      (ServerState.mk [("fail", ⟨⟨"fail", "d", .obj []⟩, fun _ =>
        .ok (.obj [("content", .arr [.obj [("type", .str "text"),
          ("text", .str "boom")]]), ("isError", .bool true)])⟩)]
        [] [] true true "srv" "1")
      ⟨.int 3, "tools/call", .obj [("name", .str "fail")]⟩ =
      (ServerState.mk [("fail", ⟨⟨"fail", "d", .obj []⟩, fun _ =>
        .ok (.obj [("content", .arr [.obj [("type", .str "text"),
          ("text", .str "boom")]]), ("isError", .bool true)])⟩)]
        [] [] true true "srv" "1",
       [Response.serialize ⟨.int 3,
          .obj [("content", .arr [.obj [("type", .str "text"),
            ("text", .str "boom")]]), ("isError", .bool true)], none⟩]) ∧
    handleRequest
      (ServerState.mk [("fail", ⟨⟨"fail", "d", .obj []⟩, fun _ =>
        .ok (.obj [("content", .arr [.obj [("type", .str "text"),
          ("text", .str "boom")]]), ("isError", .bool true)])⟩)]
        [] [] true true "srv" "1")
      ⟨.int 4, "tools/call", .obj [("name", .str "ghost")]⟩ =
      (ServerState.mk [("fail", ⟨⟨"fail", "d", .obj []⟩, fun _ =>
        .ok (.obj [("content", .arr [.obj [("type", .str "text"),
          ("text", .str "boom")]]), ("isError", .bool true)])⟩)]
        [] [] true true "srv" "1",
       [Response.serialize ⟨.int 4, .obj [],
          some ⟨.MethodNotFound, "Tool not found: " ++ "ghost", .null⟩⟩]) := by
  constructor
  · exact ((c7_tool_error_vs_protocol_error
      (ServerState.mk [("fail", ⟨⟨"fail", "d", .obj []⟩, fun _ =>
        .ok (.obj [("content", .arr [.obj [("type", .str "text"),
          ("text", .str "boom")]]), ("isError", .bool true)])⟩)]
        [] [] true true "srv" "1") (.int 3)
      (.obj [("name", .str "fail")])).1 "fail"
      ⟨⟨"fail", "d", .obj []⟩, fun _ =>
        .ok (.obj [("content", .arr [.obj [("type", .str "text"),
          ("text", .str "boom")]]), ("isError", .bool true)])⟩
      (.obj [("content", .arr [.obj [("type", .str "text"),
          ("text", .str "boom")]]), ("isError", .bool true)])
      rfl rfl rfl).1
  · exact (c7_tool_error_vs_protocol_error
      (ServerState.mk [("fail", ⟨⟨"fail", "d", .obj []⟩, fun _ =>
        .ok (.obj [("content", .arr [.obj [("type", .str "text"),
          ("text", .str "boom")]]), ("isError", .bool true)])⟩)]
        [] [] true true "srv" "1") (.int 4)
      (.obj [("name", .str "ghost")])).2.2.1 "ghost" rfl rfl

/-! ## C8, C9: client request correlation -/

theorem pendingFind_eq_none_of_not_mem (l : List (RequestId × Nat))
    (k : RequestId) (h : k ∉ l.map Prod.fst) :
    pendingFind l k = none := by
  induction l with
  | nil => rfl
  | cons hd tl ih =>
    obtain ⟨k0, v0⟩ := hd
    simp only [List.map_cons, List.mem_cons] at h
    push_neg at h
    have hne : ¬(k0 = k) := fun he => h.1 he.symm
    simp only [pendingFind, if_neg hne]
    exact ih h.2

theorem pendingFind_erase_of_nodup (l : List (RequestId × Nat)) (k : RequestId)
    (h : (l.map Prod.fst).Nodup) :
    pendingFind (pendingErase l k) k = none := by
  induction l with
  | nil => rfl
  | cons hd tl ih =>
    obtain ⟨k0, v0⟩ := hd
    simp only [List.map_cons, List.nodup_cons] at h
    by_cases hk : k0 = k
    · subst hk
      simp only [pendingErase, if_pos rfl]
      exact pendingFind_eq_none_of_not_mem tl k0 h.1
    · simp only [pendingErase, if_neg hk, pendingFind, if_neg hk]
      exact ih h.2

theorem pendingErase_insert_fresh (l : List (RequestId × Nat)) (k : RequestId)
    (v : Nat) (h : pendingFind l k = none) :
    pendingErase (pendingInsert l k v) k = l := by
  induction l with
  | nil => simp [pendingInsert, pendingErase]
  | cons hd tl ih =>
    obtain ⟨k0, v0⟩ := hd
    by_cases hk : k0 = k
    · simp [pendingFind, if_pos hk] at h
    · simp only [pendingFind, if_neg hk] at h
      simp only [pendingInsert, if_neg hk, pendingErase, if_neg hk]
      rw [ih h]

/-- C8: for every inbound Response envelope, a hit in the pending-request
map completes exactly the one matching promise with the response payload
and removes the entry (so its id no longer resolves, given the map's
unique-key invariant), while a miss leaves the map untouched, completes
nothing, and only records a diagnostic — on neither path is any frame sent
in reply. -/
theorem c8_response_completion (st : ClientState) (resp : Response) :
    (∀ p, pendingFind st.pending resp.id = some p →
      MCPClient.handleResponse st resp =
        { state := { st with pending := pendingErase st.pending resp.id },
          completed := [(p, resp)], framesSent := [], diagnostic := false } ∧
      ((st.pending.map Prod.fst).Nodup →
        pendingFind (MCPClient.handleResponse st resp).state.pending resp.id
          = none)) ∧
    (pendingFind st.pending resp.id = none →
      MCPClient.handleResponse st resp =
        { state := st, completed := [], framesSent := [], diagnostic := true }) := by
  constructor
  · intro p hp
    constructor
    · simp [MCPClient.handleResponse, hp]
    · intro hnd
      simp only [MCPClient.handleResponse, hp]
      exact pendingFind_erase_of_nodup st.pending resp.id hnd
  · intro hp
    simp [MCPClient.handleResponse, hp]

/-- C8 — witness: a client with one pending request (id 1) receives a
response for id 1 (hit: completed once, entry gone) and a response for
id 2 (miss: dropped with a diagnostic). -/
theorem c8_response_completion_witness :
    MCPClient.handleResponse ⟨[(.int 1, 0)], 1, true, 1⟩ ⟨.int 1, .obj [], none⟩ =
      { state := ⟨[], 1, true, 1⟩, completed := [(0, ⟨.int 1, .obj [], none⟩)],
        framesSent := [], diagnostic := false } ∧
    pendingFind (MCPClient.handleResponse ⟨[(.int 1, 0)], 1, true, 1⟩
        ⟨.int 1, .obj [], none⟩).state.pending (.int 1) = none ∧
    MCPClient.handleResponse ⟨[(.int 1, 0)], 1, true, 1⟩ ⟨.int 2, .obj [], none⟩ =
      { state := ⟨[(.int 1, 0)], 1, true, 1⟩, completed := [], framesSent := [],
        diagnostic := true } := by
  refine ⟨?_, ?_, ?_⟩
  · exact (((c8_response_completion ⟨[(.int 1, 0)], 1, true, 1⟩
      ⟨.int 1, .obj [], none⟩).1 0 rfl).1)
  · exact (((c8_response_completion ⟨[(.int 1, 0)], 1, true, 1⟩
      ⟨.int 1, .obj [], none⟩).1 0 rfl).2 (by simp))
  · exact ((c8_response_completion ⟨[(.int 1, 0)], 1, true, 1⟩
      ⟨.int 2, .obj [], none⟩).2 rfl)

/-- C9: when the transport write fails, `sendRequest` erases the entry it
had just inserted and resolves the returned future with the send
exception: provided the freshly allocated id was not already pending (the
id counter is strictly increasing, so in the running client it never is),
the pending map after the failed send equals the map before it. -/
theorem c9_send_failure_leaves_map_unchanged (st : ClientState) (method : String)
    (params : Json)
    (hfresh : pendingFind st.pending (.int (st.counter + 1)) = none) :
    (MCPClient.sendRequest st method params false).1.pending = st.pending ∧
    (MCPClient.sendRequest st method params false).2 =
      .failed "Failed to send request" := by
  constructor
  · simp only [MCPClient.sendRequest, if_neg (Bool.false_ne_true)]
    exact pendingErase_insert_fresh st.pending (.int (st.counter + 1))
      st.nextPromise hfresh
  · simp [MCPClient.sendRequest]

/-- C9 — witness: a failed send from a client with one unrelated pending
entry leaves that map exactly as it was. -/
theorem c9_send_failure_leaves_map_unchanged_witness :
    (MCPClient.sendRequest ⟨[(.int 1, 0)], 1, true, 1⟩ "tools/list" (.obj [])
        false).1.pending = [(.int 1, 0)] ∧
    (MCPClient.sendRequest ⟨[(.int 1, 0)], 1, true, 1⟩ "tools/list" (.obj [])
        false).2 = .failed "Failed to send request" :=
  c9_send_failure_leaves_map_unchanged ⟨[(.int 1, 0)], 1, true, 1⟩
    "tools/list" (.obj []) rfl

/-! ## C10: stdio framing -/

/-- Prefix the first line of a decomposition with the pending accumulator. -/
def withAccFirst (acc : List Char) : List (List Char) → List (List Char)
  | [] => [acc]
  | l :: ls => (acc ++ l) :: ls

theorem specLineSplit_ne_nil (cs : List Char) : specLineSplit cs ≠ [] := by
  cases cs with
  | nil => simp [specLineSplit]
  | cons c rest =>
    simp only [specLineSplit]
    split
    · simp
    · cases h : specLineSplit rest <;> simp

theorem stdioLoopAux_eq_filter (cs : List Char) : ∀ acc : List Char,
    stdioLoopAux cs acc =
      (withAccFirst acc (specLineSplit cs)).filter (fun l => !l.isEmpty) := by
  induction cs with
  | nil =>
    intro acc
    cases acc <;> simp [stdioLoopAux, specLineSplit, withAccFirst]
  | cons c rest ih =>
    intro acc
    by_cases hc : c = '\n'
    · subst hc
      simp only [stdioLoopAux, if_pos rfl, specLineSplit, withAccFirst,
        List.append_nil, List.filter_cons, ih []]
      cases h : specLineSplit rest with
      | nil => exact absurd h (specLineSplit_ne_nil rest)
      | cons l ls =>
        cases acc <;> simp [withAccFirst, List.filter_cons]
    · simp only [stdioLoopAux, if_neg hc, specLineSplit, ih (acc ++ [c])]
      cases h : specLineSplit rest with
      | nil => exact absurd h (specLineSplit_ne_nil rest)
      | cons l ls => simp [withAccFirst]

theorem specLineSplit_no_newline (cs : List Char) :
    ∀ l ∈ specLineSplit cs, '\n' ∉ l := by
  induction cs with
  | nil => simp [specLineSplit]
  | cons c rest ih =>
    by_cases hc : c = '\n'
    · subst hc
      simp only [specLineSplit, if_pos rfl]
      intro l hl
      rcases List.mem_cons.1 hl with h | h
      · subst h; simp
      · exact ih l h
    · simp only [specLineSplit, if_neg hc]
      cases h : specLineSplit rest with
      | nil => exact absurd h (specLineSplit_ne_nil rest)
      | cons l0 ls =>
        intro l hl
        rcases List.mem_cons.1 hl with h2 | h2
        · subst h2
          intro hmem
          rcases List.mem_cons.1 hmem with h3 | h3
          · exact hc h3.symm
          · exact ih l0 (h ▸ List.mem_cons_self l0 ls) h3
        · exact ih l (h ▸ List.mem_cons_of_mem l0 h2)

/-- C10: the stdio transport delivers to the message callback exactly the
non-empty lines of its input, in order — the delivered frames are the
newline-split decomposition of the stream with the empty lines dropped, and
every delivered frame is non-empty and contains no line terminator. -/
theorem c10_stdio_nonempty_lines (cs : List Char) :
    stdioReadLoop cs = (specLineSplit cs).filter (fun l => !l.isEmpty) ∧
    ∀ l ∈ stdioReadLoop cs, l ≠ [] ∧ '\n' ∉ l := by
  have heq : stdioReadLoop cs = (specLineSplit cs).filter (fun l => !l.isEmpty) := by
    rw [stdioReadLoop, stdioLoopAux_eq_filter cs []]
    cases h : specLineSplit cs with
    | nil => exact absurd h (specLineSplit_ne_nil cs)
    | cons l ls => simp [withAccFirst]
  refine ⟨heq, ?_⟩
  intro l hl
  rw [heq] at hl
  have hmem := List.mem_of_mem_filter hl
  have hne := List.of_mem_filter hl
  refine ⟨?_, specLineSplit_no_newline cs l hmem⟩
  intro hnil
  subst hnil
  simp at hne

/-- C10 — witness at the input `"a\n\nbc"`: the delivered frames are
exactly `["a", "bc"]` (the empty middle line is dropped), and the frame
`['b','c']` — the final, unterminated line — is delivered without a
newline. -/
theorem c10_stdio_nonempty_lines_witness :
    stdioReadLoop ['a', '\n', '\n', 'b', 'c'] =
      (specLineSplit ['a', '\n', '\n', 'b', 'c']).filter (fun l => !l.isEmpty) ∧
    ['b', 'c'] ≠ ([] : List Char) ∧ '\n' ∉ ['b', 'c'] :=
  ⟨(c10_stdio_nonempty_lines ['a', '\n', '\n', 'b', 'c']).1,
   (c10_stdio_nonempty_lines ['a', '\n', '\n', 'b', 'c']).2 ['b', 'c'] (by decide)⟩
